import Mathlib

/-!
Shallow embedding of the `hj_reachability` time-integration core
(`time_integration.py` and `solver.py`) over exact rationals.

Grid nodes are indexed by `Fin nodes` and spatial axes by `Fin ndim`.
Array values are modelled as functions out of these index types; the
upwind gradient reconstruction and the artificial-dissipation scheme are
external capabilities (exactly as in the source, where they live outside
the two core files) and are therefore fields of `Grid` and
`SolverSettings` respectively.

Floating-point arithmetic is modelled by exact rational arithmetic; the
one place where IEEE semantics matters (division by a zero dissipation
bound producing infinity) is modelled by an explicit case split, see
`derived_time_step`.
-/

namespace HJ

/-- `jnp.sign` on rationals. -/
def qsign (q : ℚ) : ℚ := if 0 < q then 1 else if q < 0 then -1 else 0

/-- `jnp.max` over a list of rationals (maximum of all elements; the
source never applies it to an empty array, for which we return 0). -/
def qmax (l : List ℚ) : ℚ := l.foldr max (l.headD 0)

/-- A per-node state vector (`grid.states[i]`), one coordinate per axis. -/
abbrev StateVec (ndim : ℕ) := Fin ndim → ℚ

/-- A scalar field over the grid (`values`), one entry per node. -/
abbrev ValueField (nodes : ℕ) := Fin nodes → ℚ

/-- A per-node, per-axis field (gradients, dissipation coefficients). -/
abbrev GradField (nodes ndim : ℕ) := Fin nodes → Fin ndim → ℚ

/-- The boolean active-set mask. -/
abbrev ActiveSet (nodes : ℕ) := Fin nodes → Bool

/-- The upwind reconstruction schemes named in `solver.py`
(`upwind_first.first_order`, `ENO2`, `WENO3`, `WENO5`). Their numerical
content is a grid capability (`grid.upwind_grad_values`), external to the
two core files. -/
inductive UpwindScheme where
  | first_order
  | ENO2
  | WENO3
  | WENO5
deriving DecidableEq, Repr

/-- The three time integrators of `time_integration.py`. -/
inductive TimeIntegrator where
  | first_order_tvd_rk
  | second_order_tvd_rk
  | third_order_tvd_rk
deriving DecidableEq, Repr

/-- `dynamics`: the external dynamics capability consumed by the solver:
`hamiltonian(state, time, value, grad)` and
`partial_max_magnitudes(state, time, value, grad)`. -/
structure Dynamics (ndim : ℕ) where
  hamiltonian : StateVec ndim → ℚ → ℚ → StateVec ndim → ℚ
  partial_max_magnitudes : StateVec ndim → ℚ → ℚ → StateVec ndim → StateVec ndim

/-- `grid`: the external grid capability: per-node states, per-axis
spacings, and the upwind gradient reconstruction
`upwind_grad_values(scheme, values) -> (left, right)`. -/
structure Grid (nodes ndim : ℕ) where
  states : Fin nodes → StateVec ndim
  spacings : Fin ndim → ℚ
  upwind_grad_values : UpwindScheme → ValueField nodes →
    GradField nodes ndim × GradField nodes ndim

/-- The signature of `solver_settings.artificial_dissipation_scheme`:
it receives `dynamics.partial_max_magnitudes`, `grid.states`, `time`,
`values`, `left_grad_values`, `right_grad_values` and returns the
per-node per-axis dissipation coefficients. -/
abbrev DissipationScheme (nodes ndim : ℕ) :=
  (StateVec ndim → ℚ → ℚ → StateVec ndim → StateVec ndim) →
  (Fin nodes → StateVec ndim) → ℚ → ValueField nodes →
  GradField nodes ndim → GradField nodes ndim → GradField nodes ndim

/-- `SolverSettings` from `solver.py` (the two scheme callables that are
external to the core files are kept as opaque function fields; the
`time_integrator` field ranges over the three integrators defined in
`time_integration.py`). -/
structure SolverSettings (nodes ndim : ℕ) where
  upwind_scheme : UpwindScheme
  artificial_dissipation_scheme : DissipationScheme nodes ndim
  hamiltonian_postprocessor : ValueField nodes → ValueField nodes
  time_integrator : TimeIntegrator
  value_postprocessor : ℚ → ValueField nodes → ValueField nodes
  CFL_number : ℚ

/-- `backwards_reachable_tube = lambda x: jnp.minimum(x, 0)` from
`solver.py` (elementwise on the array it is given). -/
def backwards_reachable_tube {nodes : ℕ} : ValueField nodes → ValueField nodes :=
  fun x i => min (x i) 0

/-- `static_obstacle = lambda obstacle: (lambda t, v: jnp.maximum(v, obstacle))`
from `solver.py`. -/
def static_obstacle {nodes : ℕ} (obstacle : ValueField nodes) :
    ℚ → ValueField nodes → ValueField nodes :=
  fun _ v i => max (v i) (obstacle i)

/-- `lax_friedrichs_numerical_hamiltonian` from `time_integration.py`:
the Hamiltonian at the average gradient minus
`dissipation_coefficients @ (right_grad_value - left_grad_value) / 2`. -/
def lax_friedrichs_numerical_hamiltonian {ndim : ℕ}
    (hamiltonian : StateVec ndim → ℚ → ℚ → StateVec ndim → ℚ)
    (state : StateVec ndim) (time value : ℚ)
    (left_grad_value right_grad_value dissipation_coefficients : StateVec ndim) : ℚ :=
  hamiltonian state time value (fun a => (left_grad_value a + right_grad_value a) / 2)
    - (∑ a : Fin ndim, dissipation_coefficients a * (right_grad_value a - left_grad_value a)) / 2

/-- The dissipation coefficients computed inside `euler_step`:
`solver_settings.artificial_dissipation_scheme(dynamics.partial_max_magnitudes,
grid.states, time, values, left_grad_values, right_grad_values)`. -/
def euler_step_dissipation_coefficients {nodes ndim : ℕ}
    (solver_settings : SolverSettings nodes ndim) (dynamics : Dynamics ndim)
    (grid : Grid nodes ndim) (time : ℚ) (values : ValueField nodes) :
    GradField nodes ndim :=
  let lr := grid.upwind_grad_values solver_settings.upwind_scheme values
  solver_settings.artificial_dissipation_scheme dynamics.partial_max_magnitudes
    grid.states time values lr.1 lr.2

/-- The denominator of the CFL stability bound in `euler_step`:
`jnp.max(jnp.sum(dissipation_coefficients / jnp.array(grid.spacings), -1))`
(the maximum over all nodes of the sum over axes of
`dissipation_coefficient / axis_spacing`). -/
def time_step_denominator {nodes ndim : ℕ}
    (solver_settings : SolverSettings nodes ndim) (dynamics : Dynamics ndim)
    (grid : Grid nodes ndim) (time : ℚ) (values : ValueField nodes) : ℚ :=
  qmax ((List.finRange nodes).map fun i =>
    ∑ a : Fin ndim,
      euler_step_dissipation_coefficients solver_settings dynamics grid time values i a
        / grid.spacings a)

/-- The derived time step of `euler_step` when `time_step is None`:
`time_direction * minimum(CFL_number * (1 / den), abs(max_time_step))`.
In the source the arithmetic is IEEE: when the denominator `den` is zero,
`1 / den` is `+inf`, and (for a positive CFL number) the minimum with
`abs(max_time_step)` is `abs(max_time_step)`; the `den = 0` case is
modelled by that explicit branch. -/
def derived_time_step (CFL_number den max_time_step : ℚ) : ℚ :=
  qsign max_time_step *
    (if den = 0 then |max_time_step|
     else min (CFL_number * (1 / den)) |max_time_step|)

/-- The `time_direction` local of `euler_step`:
`jnp.sign(max_time_step) if time_step is None else jnp.sign(time_step)`. -/
def euler_step_time_direction (time_step : Option ℚ) (max_time_step : ℚ) : ℚ :=
  match time_step with
  | none => qsign max_time_step
  | some ts => qsign ts

/-- The per-node array built inside `euler_step` by `multivmap` with
`jax.lax.cond`: at an active node, the Lax-Friedrichs numerical
Hamiltonian of the time-direction-scaled dynamics Hamiltonian; at an
inactive node, zero. -/
def euler_step_masked_hamiltonian {nodes ndim : ℕ}
    (solver_settings : SolverSettings nodes ndim) (dynamics : Dynamics ndim)
    (grid : Grid nodes ndim) (time : ℚ) (values : ValueField nodes)
    (active_set : ActiveSet nodes) (time_step : Option ℚ) (max_time_step : ℚ) :
    ValueField nodes :=
  let time_direction := euler_step_time_direction time_step max_time_step
  let lr := grid.upwind_grad_values solver_settings.upwind_scheme values
  let dissipation_coefficients :=
    euler_step_dissipation_coefficients solver_settings dynamics grid time values
  fun i =>
    if active_set i then
      lax_friedrichs_numerical_hamiltonian
        (fun st t v g => time_direction * dynamics.hamiltonian st t v g)
        (grid.states i) time (values i) (lr.1 i) (lr.2 i)
        (dissipation_coefficients i)
    else 0

/-- The `dvalues_dt` local of `euler_step`:
`-hamiltonian_postprocessor(time_direction * masked_array)`. -/
def euler_step_dvalues_dt {nodes ndim : ℕ}
    (solver_settings : SolverSettings nodes ndim) (dynamics : Dynamics ndim)
    (grid : Grid nodes ndim) (time : ℚ) (values : ValueField nodes)
    (active_set : ActiveSet nodes) (time_step : Option ℚ) (max_time_step : ℚ) :
    ValueField nodes :=
  fun i =>
    -(solver_settings.hamiltonian_postprocessor
      (fun j => euler_step_time_direction time_step max_time_step *
        euler_step_masked_hamiltonian solver_settings dynamics grid time values
          active_set time_step max_time_step j) i)

/-- The step size actually taken by `euler_step`: the explicit
`time_step` when supplied, else the CFL-derived step. -/
def euler_step_time_step {nodes ndim : ℕ}
    (solver_settings : SolverSettings nodes ndim) (dynamics : Dynamics ndim)
    (grid : Grid nodes ndim) (time : ℚ) (values : ValueField nodes)
    (time_step : Option ℚ) (max_time_step : ℚ) : ℚ :=
  match time_step with
  | some ts => ts
  | none =>
      derived_time_step solver_settings.CFL_number
        (time_step_denominator solver_settings dynamics grid time values) max_time_step

/-- `euler_step` from `time_integration.py`:
`(time + time_step, values + time_step * dvalues_dt)`. `time_step = none`
selects the CFL-derived step bounded by `max_time_step`; when an explicit
`time_step` is supplied `max_time_step` is unused (it is `None` at those
call sites in the source, so we pass an arbitrary rational there). -/
def euler_step {nodes ndim : ℕ}
    (solver_settings : SolverSettings nodes ndim) (dynamics : Dynamics ndim)
    (grid : Grid nodes ndim) (time : ℚ) (values : ValueField nodes)
    (active_set : ActiveSet nodes) (time_step : Option ℚ) (max_time_step : ℚ) :
    ℚ × ValueField nodes :=
  let ts := euler_step_time_step solver_settings dynamics grid time values time_step
    max_time_step
  (time + ts, fun i => values i +
    ts * euler_step_dvalues_dt solver_settings dynamics grid time values active_set
      time_step max_time_step i)

/-- `first_order_total_variation_diminishing_runge_kutta` from
`time_integration.py`. -/
def first_order_total_variation_diminishing_runge_kutta {nodes ndim : ℕ}
    (solver_settings : SolverSettings nodes ndim) (dynamics : Dynamics ndim)
    (grid : Grid nodes ndim) (time : ℚ) (values : ValueField nodes)
    (target_time : ℚ) (active_set : ActiveSet nodes) : ℚ × ValueField nodes :=
  let r1 := euler_step solver_settings dynamics grid time values active_set none
    (target_time - time)
  (r1.1, solver_settings.value_postprocessor r1.1 r1.2)

/-- `second_order_total_variation_diminishing_runge_kutta` from
`time_integration.py`. -/
def second_order_total_variation_diminishing_runge_kutta {nodes ndim : ℕ}
    (solver_settings : SolverSettings nodes ndim) (dynamics : Dynamics ndim)
    (grid : Grid nodes ndim) (time : ℚ) (values : ValueField nodes)
    (target_time : ℚ) (active_set : ActiveSet nodes) : ℚ × ValueField nodes :=
  let r1 := euler_step solver_settings dynamics grid time values active_set none
    (target_time - time)
  let time_step := r1.1 - time
  let r2 := euler_step solver_settings dynamics grid r1.1 r1.2 active_set
    (some time_step) 0
  (r1.1, solver_settings.value_postprocessor r1.1 fun i => (values i + r2.2 i) / 2)

/-- `third_order_total_variation_diminishing_runge_kutta` from
`time_integration.py`. -/
def third_order_total_variation_diminishing_runge_kutta {nodes ndim : ℕ}
    (solver_settings : SolverSettings nodes ndim) (dynamics : Dynamics ndim)
    (grid : Grid nodes ndim) (time : ℚ) (values : ValueField nodes)
    (target_time : ℚ) (active_set : ActiveSet nodes) : ℚ × ValueField nodes :=
  let r1 := euler_step solver_settings dynamics grid time values active_set none
    (target_time - time)
  let time_step := r1.1 - time
  let r2 := euler_step solver_settings dynamics grid r1.1 r1.2 active_set
    (some time_step) 0
  let time_0_5 := time + time_step / 2
  let values_0_5 : ValueField nodes := fun i => (3 / 4) * values i + (1 / 4) * r2.2 i
  let r3 := euler_step solver_settings dynamics grid time_0_5 values_0_5 active_set
    (some time_step) 0
  (r1.1, solver_settings.value_postprocessor r1.1 fun i =>
    (1 / 3) * values i + (2 / 3) * r3.2 i)

/-- Dispatch `solver_settings.time_integrator`. -/
def run_time_integrator {nodes ndim : ℕ} (integrator : TimeIntegrator)
    (solver_settings : SolverSettings nodes ndim) (dynamics : Dynamics ndim)
    (grid : Grid nodes ndim) (time : ℚ) (values : ValueField nodes)
    (target_time : ℚ) (active_set : ActiveSet nodes) : ℚ × ValueField nodes :=
  match integrator with
  | .first_order_tvd_rk =>
      first_order_total_variation_diminishing_runge_kutta solver_settings dynamics
        grid time values target_time active_set
  | .second_order_tvd_rk =>
      second_order_total_variation_diminishing_runge_kutta solver_settings dynamics
        grid time values target_time active_set
  | .third_order_tvd_rk =>
      third_order_total_variation_diminishing_runge_kutta solver_settings dynamics
        grid time values target_time active_set

/-- The body of the `while_loop` in `step` (`sub_step` in `solver.py`;
the progress-bar update is a side effect decoupled from the numerical
path and is not part of the numerical state). -/
def sub_step {nodes ndim : ℕ} (solver_settings : SolverSettings nodes ndim)
    (dynamics : Dynamics ndim) (grid : Grid nodes ndim) (target_time : ℚ)
    (active_set : ActiveSet nodes) (time_values : ℚ × ValueField nodes) :
    ℚ × ValueField nodes :=
  run_time_integrator solver_settings.time_integrator solver_settings dynamics grid
    time_values.1 time_values.2 target_time active_set

/-- Fuel-bounded model of
`jax.lax.while_loop(lambda tv: abs(target_time - tv[0]) > 0, sub_step, (time, values))`:
the guard is checked before each body application; when fuel runs out the
current state is returned. -/
def step_loop {nodes ndim : ℕ} (solver_settings : SolverSettings nodes ndim)
    (dynamics : Dynamics ndim) (grid : Grid nodes ndim) (target_time : ℚ)
    (active_set : ActiveSet nodes) :
    ℕ → ℚ × ValueField nodes → ℚ × ValueField nodes
  | 0, time_values => time_values
  | fuel + 1, time_values =>
      if |target_time - time_values.1| > 0 then
        step_loop solver_settings dynamics grid target_time active_set fuel
          (sub_step solver_settings dynamics grid target_time active_set time_values)
      else time_values

/-- The numerical content of `step` from `solver.py`: iterate the
configured integrator until the target time is reached, and return the
value component. -/
def step {nodes ndim : ℕ} (solver_settings : SolverSettings nodes ndim)
    (dynamics : Dynamics ndim) (grid : Grid nodes ndim) (time : ℚ)
    (values : ValueField nodes) (target_time : ℚ) (active_set : ActiveSet nodes)
    (fuel : ℕ) : ValueField nodes :=
  (step_loop solver_settings dynamics grid target_time active_set fuel
    (time, values)).2

/-- The `jax.lax.scan` body of `solve`: from carry `(t, v)` and the next
target time, produce the new carry and the output slice (both built from
one `step` call, abstracted here as `stepFn t v target`). -/
def solve_scan {nodes : ℕ} (stepFn : ℚ → ValueField nodes → ℚ → ValueField nodes) :
    ℚ → ValueField nodes → List ℚ → List (ValueField nodes)
  | _, _, [] => []
  | t, v, target :: rest =>
      stepFn t v target :: solve_scan stepFn target (stepFn t v target) rest

/-- The numerical content of `solve` from `solver.py`:
`concatenate([initial_values[newaxis], scan(..., (times[0], initial_values), times[1:])[1]])`.
The `step` call made for each interval is abstracted as `stepFn`. -/
def solve {nodes : ℕ} (stepFn : ℚ → ValueField nodes → ℚ → ValueField nodes)
    (times : List ℚ) (initial_values : ValueField nodes) : List (ValueField nodes) :=
  match times with
  | [] => []
  | t0 :: rest => initial_values :: solve_scan stepFn t0 initial_values rest

/-- The message of the `ImportError` raised by `_try_get_progress_bar`
(punctuation simplified). -/
def try_get_progress_bar_msg : String :=
  "The option progress_bar=True requires the tqdm package to be installed."

/-- `_try_get_progress_bar` from `solver.py`: attempts `import tqdm` and
raises an `ImportError` when the optional dependency is absent. Whether
`tqdm` is importable is environment state, passed in as a boolean. -/
def try_get_progress_bar (tqdm_available : Bool) : Except String Unit :=
  if tqdm_available then Except.ok () else Except.error try_get_progress_bar_msg

/-- The default of the `progress_bar` keyword of `step` and `solve` in
`solver.py` (`progress_bar=True`). -/
def step_progress_bar_default : Bool := true

/-- `step` including its progress-bar error behavior:
`_try_get_progress_bar(...) if progress_bar is True else nullcontext(...)`.
The error is raised before any numerical work. -/
def step_checked {nodes ndim : ℕ} (tqdm_available progress_bar : Bool)
    (solver_settings : SolverSettings nodes ndim) (dynamics : Dynamics ndim)
    (grid : Grid nodes ndim) (time : ℚ) (values : ValueField nodes)
    (target_time : ℚ) (active_set : ActiveSet nodes) (fuel : ℕ) :
    Except String (ValueField nodes) :=
  match (if progress_bar then try_get_progress_bar tqdm_available else Except.ok ()) with
  | Except.error e => Except.error e
  | Except.ok _ =>
      Except.ok (step solver_settings dynamics grid time values target_time active_set fuel)

/-- `solve` including its progress-bar error behavior (same guard as
`step`). -/
def solve_checked {nodes : ℕ} (tqdm_available progress_bar : Bool)
    (stepFn : ℚ → ValueField nodes → ℚ → ValueField nodes) (times : List ℚ)
    (initial_values : ValueField nodes) : Except String (List (ValueField nodes)) :=
  match (if progress_bar then try_get_progress_bar tqdm_available else Except.ok ()) with
  | Except.error e => Except.error e
  | Except.ok _ => Except.ok (solve stepFn times initial_values)

/-- The string values of `SolverAccuracyEnum` in `solver.py` (a `str`
enum, so comparison with a plain string compares these values). -/
def solver_accuracy_values : List String :=
  ["low", "medium", "high", "very_high", "customodp"]

/-- The error message of the `ValueError` in `with_accuracy`
(punctuation simplified). -/
def with_accuracy_error_msg : String :=
  "Unknown accuracy level. Use one of the SolverAccuracyEnum values."

/-- `SolverSettings.with_accuracy` from `solver.py`: the chain of
comparisons of the accuracy argument against the `SolverAccuracyEnum`
values, selecting the upwind scheme and time integrator, with the final
`else` raising a `ValueError`. -/
def SolverSettings.with_accuracy (accuracy : String) :
    Except String (UpwindScheme × TimeIntegrator) :=
  if accuracy = "low" then
    Except.ok (UpwindScheme.first_order, TimeIntegrator.first_order_tvd_rk)
  else if accuracy = "medium" then
    Except.ok (UpwindScheme.ENO2, TimeIntegrator.second_order_tvd_rk)
  else if accuracy = "high" then
    Except.ok (UpwindScheme.WENO3, TimeIntegrator.third_order_tvd_rk)
  else if accuracy = "very_high" then
    Except.ok (UpwindScheme.WENO5, TimeIntegrator.third_order_tvd_rk)
  else if accuracy = "customodp" then
    Except.ok (UpwindScheme.ENO2, TimeIntegrator.third_order_tvd_rk)
  else Except.error with_accuracy_error_msg

/-- A `SolverSettings` value with the defaults of `solver.py` for the
fields defined in the two core files (identity postprocessors,
third-order integrator, WENO5) and a caller-chosen dissipation scheme
and CFL number. The field defaults of the `SolverSettings` dataclass
place no constraint on `CFL_number`. -/
def settings_with_CFL {nodes ndim : ℕ}
    (dissipation : DissipationScheme nodes ndim) (q : ℚ) :
    SolverSettings nodes ndim where
  upwind_scheme := UpwindScheme.WENO5
  artificial_dissipation_scheme := dissipation
  hamiltonian_postprocessor := fun v => v
  time_integrator := TimeIntegrator.third_order_tvd_rk
  value_postprocessor := fun _ v => v
  CFL_number := q

/-! Concrete one-node, one-axis instances used by witnesses and
counterexamples. -/

/-- A 1-node, 1-axis grid whose reconstruction returns zero gradients. -/
def tinyGrid : Grid 1 1 where
  states := fun _ _ => 0
  spacings := fun _ => 1
  upwind_grad_values := fun _ _ => (fun _ _ => 0, fun _ _ => 0)

/-- A 1-node, 1-axis grid whose reconstruction returns left gradient 0 and
right gradient 2 (so the dissipation correction is exercised). -/
def gradGrid : Grid 1 1 where
  states := fun _ _ => 0
  spacings := fun _ => 1
  upwind_grad_values := fun _ _ => (fun _ _ => 0, fun _ _ => 2)

/-- A dissipation scheme returning zero coefficients everywhere. -/
def zeroDissipation (nodes ndim : ℕ) : DissipationScheme nodes ndim :=
  fun _ _ _ _ _ _ => fun _ _ => 0

/-- A dissipation scheme returning coefficient 1 everywhere. -/
def oneDissipation (nodes ndim : ℕ) : DissipationScheme nodes ndim :=
  fun _ _ _ _ _ _ => fun _ _ => 1

/-- Dynamics with identically zero Hamiltonian and zero wave-speed bounds. -/
def zeroDynamics : Dynamics 1 where
  hamiltonian := fun _ _ _ _ => 0
  partial_max_magnitudes := fun _ _ _ _ _ => 0

/-- Dynamics with identically-1 Hamiltonian and zero wave-speed bounds. -/
def oneDynamics : Dynamics 1 where
  hamiltonian := fun _ _ _ _ => 1
  partial_max_magnitudes := fun _ _ _ _ _ => 0

/-- Default-like settings (identity postprocessors, CFL 3/4) with zero
dissipation coefficients. -/
def tinySettings : SolverSettings 1 1 := settings_with_CFL (zeroDissipation 1 1) (3 / 4)

/-- Default-like settings (identity postprocessors, CFL 3/4) with unit
dissipation coefficients. -/
def tinySettingsOneDiss : SolverSettings 1 1 :=
  settings_with_CFL (oneDissipation 1 1) (3 / 4)

/-- Settings as `tinySettings` but with the `backwards_reachable_tube`
Hamiltonian postprocessor. -/
def brtSettings : SolverSettings 1 1 :=
  { tinySettings with hamiltonian_postprocessor := backwards_reachable_tube }

/-- Settings as `tinySettings` but with a Hamiltonian postprocessor that
returns the constant-1 array (a legal value for the callable field) and
the first-order integrator. -/
def constOneSettings : SolverSettings 1 1 :=
  { tinySettings with
    hamiltonian_postprocessor := fun _ _ => 1
    time_integrator := TimeIntegrator.first_order_tvd_rk }

/-- Settings as `tinySettingsOneDiss` but with the first-order integrator. -/
def firstOrderOneDissSettings : SolverSettings 1 1 :=
  { tinySettingsOneDiss with time_integrator := TimeIntegrator.first_order_tvd_rk }

/-- The dynamics model with the negated Hamiltonian and the same
`partial_max_magnitudes` (the transformation named by the sign-convention
sentence of the specification). -/
def negate_hamiltonian {ndim : ℕ} (dynamics : Dynamics ndim) : Dynamics ndim where
  hamiltonian := fun st t v g => -(dynamics.hamiltonian st t v g)
  partial_max_magnitudes := dynamics.partial_max_magnitudes

/-- The third-order integrator as the claim describes it: stage 1 from
`(time, values)`; stage 2 from stage 1 with the same step size; the
midpoint blend `(3/4)*values + (1/4)*stage2` at the half-step time;
stage 3 from the half-step time and the midpoint blend with the same step
size; the final value `(1/3)*values + (2/3)*stage3`, with the value
postprocessor applied exactly once, to the final blend only. -/
def third_order_rk_claim {nodes ndim : ℕ}
    (solver_settings : SolverSettings nodes ndim) (dynamics : Dynamics ndim)
    (grid : Grid nodes ndim) (time : ℚ) (values : ValueField nodes)
    (target_time : ℚ) (active_set : ActiveSet nodes) : ℚ × ValueField nodes :=
  let stage1 := euler_step solver_settings dynamics grid time values active_set none
    (target_time - time)
  let step_size := stage1.1 - time
  let stage2 := euler_step solver_settings dynamics grid stage1.1 stage1.2 active_set
    (some step_size) 0
  let half_step_time := time + step_size / 2
  let midpoint_blend : ValueField nodes := fun i =>
    (3 / 4) * values i + (1 / 4) * stage2.2 i
  let stage3 := euler_step solver_settings dynamics grid half_step_time midpoint_blend
    active_set (some step_size) 0
  let final_blend : ValueField nodes := fun i =>
    (1 / 3) * values i + (2 / 3) * stage3.2 i
  (stage1.1, solver_settings.value_postprocessor stage1.1 final_blend)

/-! Helper lemmas. -/

theorem qsign_mul_abs (q : ℚ) : qsign q * |q| = q := by
  rcases lt_trichotomy 0 q with h | h | h
  · rw [qsign, if_pos h, abs_of_pos h, one_mul]
  · rw [qsign, ← h]
    norm_num
  · rw [qsign, if_neg (not_lt.mpr h.le), if_pos h, abs_of_neg h]
    ring

theorem qsign_of_pos {q : ℚ} (h : 0 < q) : qsign q = 1 := by
  rw [qsign, if_pos h]

theorem qsign_of_neg {q : ℚ} (h : q < 0) : qsign q = -1 := by
  rw [qsign, if_neg (not_lt.mpr h.le), if_pos h]

theorem foldr_max_const (l : List ℚ) (c : ℚ) (h : ∀ x ∈ l, x = c) :
    l.foldr max c = c := by
  induction l with
  | nil => rfl
  | cons x xs ih =>
    have hx : x = c := h x (List.mem_cons_self x xs)
    have hxs : ∀ y ∈ xs, y = c := fun y hy => h y (List.mem_cons_of_mem x hy)
    simp [List.foldr, hx, ih hxs]

theorem qmax_const (l : List ℚ) (c : ℚ) (hne : l ≠ []) (h : ∀ x ∈ l, x = c) :
    qmax l = c := by
  match l with
  | [] => exact absurd rfl hne
  | x :: xs =>
    have hx : x = c := h x (List.mem_cons_self x xs)
    rw [qmax, List.headD_cons]
    calc List.foldr max x (x :: xs) = List.foldr max c (x :: xs) := by rw [hx]
      _ = c := foldr_max_const (x :: xs) c h

theorem qmax_all_zero (l : List ℚ) (h : ∀ x ∈ l, x = 0) : qmax l = 0 := by
  match l with
  | [] => rfl
  | x :: xs => exact qmax_const (x :: xs) 0 (by simp) h

theorem solve_scan_length {nodes : ℕ}
    (stepFn : ℚ → ValueField nodes → ℚ → ValueField nodes) :
    ∀ (rest : List ℚ) (t : ℚ) (v : ValueField nodes),
      (solve_scan stepFn t v rest).length = rest.length := by
  intro rest
  induction rest with
  | nil => intro t v; rfl
  | cons target xs ih => intro t v; simp [solve_scan, ih]

theorem solve_scan_getElem {nodes : ℕ}
    (stepFn : ℚ → ValueField nodes → ℚ → ValueField nodes) :
    ∀ (rest : List ℚ) (t : ℚ) (v : ValueField nodes) (i : ℕ) (ti tj : ℚ)
      (vi : ValueField nodes),
      (t :: rest)[i]? = some ti → rest[i]? = some tj →
      (v :: solve_scan stepFn t v rest)[i]? = some vi →
      (solve_scan stepFn t v rest)[i]? = some (stepFn ti vi tj) := by
  intro rest
  induction rest with
  | nil =>
    intro t v i ti tj vi _ h2 _
    simp at h2
  | cons target xs ih =>
    intro t v i ti tj vi h1 h2 h3
    match i with
    | 0 =>
      simp only [List.getElem?_cons_zero, Option.some_inj] at h1 h2 h3
      subst h1; subst h2; subst h3
      simp [solve_scan]
    | i' + 1 =>
      simp only [List.getElem?_cons_succ] at h1 h2 h3
      simp only [solve_scan] at h3 ⊢
      rw [List.getElem?_cons_succ]
      exact ih target (stepFn t v target) i' ti tj vi h1 h2 h3

/-- C1: when no explicit time step is supplied, the step taken by
`euler_step` has magnitude `min(CFL_number * (1/den), |max_time_step|)`,
where `den` is the maximum over all nodes of the sum over axes of
`dissipation_coefficient / axis_spacing`, and its sign is the sign of
`max_time_step`; consequently, when the dissipation coefficients are
constant per axis, the derived step satisfies
`|dt| * dissipation a / spacing a ≤ CFL_number` for every axis `a`. -/
theorem euler_step_cfl_derived_step {nodes ndim : ℕ}
    (solver_settings : SolverSettings nodes ndim) (dynamics : Dynamics ndim)
    (grid : Grid nodes ndim) (time : ℚ) (values : ValueField nodes)
    (active_set : ActiveSet nodes) (max_time_step : ℚ)
    (hCFL : 0 < solver_settings.CFL_number)
    (hden : 0 < time_step_denominator solver_settings dynamics grid time values) :
    |(euler_step solver_settings dynamics grid time values active_set none
        max_time_step).1 - time| =
      min (solver_settings.CFL_number *
          (1 / time_step_denominator solver_settings dynamics grid time values))
        |max_time_step| ∧
    qsign ((euler_step solver_settings dynamics grid time values active_set none
        max_time_step).1 - time) = qsign max_time_step ∧
    (∀ sdiss : Fin ndim → ℚ,
      (∀ i a, euler_step_dissipation_coefficients solver_settings dynamics grid time
        values i a = sdiss a) →
      (∀ a, 0 ≤ sdiss a) → (∀ a, 0 < grid.spacings a) →
      ∀ a, |(euler_step solver_settings dynamics grid time values active_set none
          max_time_step).1 - time| * sdiss a / grid.spacings a
        ≤ solver_settings.CFL_number) := by
  have hne : time_step_denominator solver_settings dynamics grid time values ≠ 0 :=
    ne_of_gt hden
  have hdt : (euler_step solver_settings dynamics grid time values active_set none
        max_time_step).1 - time
      = qsign max_time_step * min (solver_settings.CFL_number *
          (1 / time_step_denominator solver_settings dynamics grid time values))
        |max_time_step| := by
    show time + euler_step_time_step solver_settings dynamics grid time values none
        max_time_step - time = _
    simp only [euler_step_time_step, derived_time_step, if_neg hne, add_sub_cancel_left]
  have hpos : 0 < solver_settings.CFL_number *
      (1 / time_step_denominator solver_settings dynamics grid time values) :=
    mul_pos hCFL (one_div_pos.mpr hden)
  have hM : 0 ≤ min (solver_settings.CFL_number *
      (1 / time_step_denominator solver_settings dynamics grid time values))
      |max_time_step| :=
    le_min hpos.le (abs_nonneg _)
  have habs : |(euler_step solver_settings dynamics grid time values active_set none
        max_time_step).1 - time|
      = min (solver_settings.CFL_number *
          (1 / time_step_denominator solver_settings dynamics grid time values))
        |max_time_step| := by
    rw [hdt, abs_mul]
    rcases lt_trichotomy 0 max_time_step with h | h | h
    · rw [qsign_of_pos h, abs_one, one_mul, abs_of_nonneg hM]
    · have h0 : qsign (0 : ℚ) = 0 := by simp [qsign]
      rw [← h, h0, abs_zero, zero_mul]
      exact (min_eq_right hpos.le).symm
    · rw [qsign_of_neg h, abs_neg, abs_one, one_mul, abs_of_nonneg hM]
  refine ⟨habs, ?_, ?_⟩
  · rw [hdt]
    rcases lt_trichotomy 0 max_time_step with h | h | h
    · have hMpos : 0 < min (solver_settings.CFL_number *
          (1 / time_step_denominator solver_settings dynamics grid time values))
          |max_time_step| :=
        lt_min hpos (abs_pos.mpr (ne_of_gt h))
      rw [qsign_of_pos h, one_mul, qsign_of_pos hMpos]
    · have h0 : qsign (0 : ℚ) = 0 := by simp [qsign]
      rw [← h, h0, zero_mul]
      exact h0
    · have hMpos : 0 < min (solver_settings.CFL_number *
          (1 / time_step_denominator solver_settings dynamics grid time values))
          |max_time_step| :=
        lt_min hpos (abs_pos.mpr (ne_of_lt h))
      rw [qsign_of_neg h, neg_one_mul, qsign_of_neg (neg_lt_zero.mpr hMpos)]
  · intro sdiss hconst hnn hsp a
    have hnodes : nodes ≠ 0 := by
      intro h0
      subst h0
      simp [time_step_denominator, qmax, List.finRange_zero] at hden
    have hS : time_step_denominator solver_settings dynamics grid time values
        = ∑ b : Fin ndim, sdiss b / grid.spacings b := by
      refine qmax_const _ _ ?_ ?_
      · intro hmapnil
        exact hnodes (List.finRange_eq_nil.mp (List.map_eq_nil.mp hmapnil))
      · intro x hx
        rcases List.mem_map.mp hx with ⟨i, _, rfl⟩
        exact Finset.sum_congr rfl fun b _ => by rw [hconst i b]
    have hterm : sdiss a / grid.spacings a
        ≤ time_step_denominator solver_settings dynamics grid time values := by
      rw [hS]
      exact Finset.single_le_sum (fun b _ => div_nonneg (hnn b) (hsp b).le)
        (Finset.mem_univ a)
    have hdtle : |(euler_step solver_settings dynamics grid time values active_set none
          max_time_step).1 - time|
        ≤ solver_settings.CFL_number *
          (1 / time_step_denominator solver_settings dynamics grid time values) := by
      rw [habs]
      exact min_le_left _ _
    calc |(euler_step solver_settings dynamics grid time values active_set none
          max_time_step).1 - time| * sdiss a / grid.spacings a
        = |(euler_step solver_settings dynamics grid time values active_set none
          max_time_step).1 - time| * (sdiss a / grid.spacings a) := by
          rw [mul_div_assoc]
      _ ≤ (solver_settings.CFL_number *
            (1 / time_step_denominator solver_settings dynamics grid time values)) *
          (sdiss a / grid.spacings a) :=
          mul_le_mul_of_nonneg_right hdtle (div_nonneg (hnn a) (hsp a).le)
      _ ≤ (solver_settings.CFL_number *
            (1 / time_step_denominator solver_settings dynamics grid time values)) *
          time_step_denominator solver_settings dynamics grid time values :=
          mul_le_mul_of_nonneg_left hterm hpos.le
      _ = solver_settings.CFL_number := by
          field_simp

/-- Witness for C1 at a concrete instance (unit dissipation, unit spacing,
CFL 3/4, maximum step 5, so the derived step is 3/4). -/
theorem euler_step_cfl_derived_step_witness :
    0 < tinySettingsOneDiss.CFL_number ∧
    0 < time_step_denominator tinySettingsOneDiss zeroDynamics tinyGrid 0 (fun _ => 0) ∧
    (|(euler_step tinySettingsOneDiss zeroDynamics tinyGrid 0 (fun _ => 0)
        (fun _ => true) none 5).1 - 0| =
      min (tinySettingsOneDiss.CFL_number *
          (1 / time_step_denominator tinySettingsOneDiss zeroDynamics tinyGrid 0
            (fun _ => 0)))
        |(5 : ℚ)| ∧
    qsign ((euler_step tinySettingsOneDiss zeroDynamics tinyGrid 0 (fun _ => 0)
        (fun _ => true) none 5).1 - 0) = qsign 5 ∧
    (∀ sdiss : Fin 1 → ℚ,
      (∀ i a, euler_step_dissipation_coefficients tinySettingsOneDiss zeroDynamics
        tinyGrid 0 (fun _ => 0) i a = sdiss a) →
      (∀ a, 0 ≤ sdiss a) → (∀ a, 0 < tinyGrid.spacings a) →
      ∀ a, |(euler_step tinySettingsOneDiss zeroDynamics tinyGrid 0 (fun _ => 0)
          (fun _ => true) none 5).1 - 0| * sdiss a / tinyGrid.spacings a
        ≤ tinySettingsOneDiss.CFL_number)) := by
  have hCFL : 0 < tinySettingsOneDiss.CFL_number := by
    norm_num [tinySettingsOneDiss, settings_with_CFL]
  have hden : 0 < time_step_denominator tinySettingsOneDiss zeroDynamics tinyGrid 0
      (fun _ => 0) := by
    simp [time_step_denominator, euler_step_dissipation_coefficients,
      tinySettingsOneDiss, settings_with_CFL, oneDissipation, tinyGrid, zeroDynamics,
      qmax, List.finRange]
  exact ⟨hCFL, hden, euler_step_cfl_derived_step tinySettingsOneDiss zeroDynamics
    tinyGrid 0 (fun _ => 0) (fun _ => true) 5 hCFL hden⟩

/-- C2: the third-order integrator computes exactly the staged composition
described by the specification (stage 1; stage 2 with the same step size;
midpoint blend `(3/4)*values + (1/4)*stage2` at the half-step time; stage 3
with the same step size; final value `(1/3)*values + (2/3)*stage3`), and the
value postprocessor is applied exactly once, to the final blend only. -/
theorem third_order_rk_structure {nodes ndim : ℕ}
    (solver_settings : SolverSettings nodes ndim) (dynamics : Dynamics ndim)
    (grid : Grid nodes ndim) (time : ℚ) (values : ValueField nodes)
    (target_time : ℚ) (active_set : ActiveSet nodes) :
    third_order_total_variation_diminishing_runge_kutta solver_settings dynamics grid
        time values target_time active_set =
      third_order_rk_claim solver_settings dynamics grid time values target_time
        active_set := rfl

/-- C3: for a nonempty strictly monotonic list of times, `solve` returns
one value field per requested time, the first being the initial one and
each following one obtained by `step` between the consecutive pair of
times; in particular the two-interval case composes the two `step` calls. -/
theorem solve_structure {nodes : ℕ}
    (stepFn : ℚ → ValueField nodes → ℚ → ValueField nodes)
    (times : List ℚ) (initial_values : ValueField nodes)
    (hne : times ≠ [])
    (hmono : times.Chain' (· < ·) ∨ times.Chain' (· > ·)) :
    (solve stepFn times initial_values).length = times.length ∧
    (solve stepFn times initial_values).head? = some initial_values ∧
    (∀ (i : ℕ) (ti tj : ℚ) (vi : ValueField nodes),
      times[i]? = some ti → times[i + 1]? = some tj →
      (solve stepFn times initial_values)[i]? = some vi →
      (solve stepFn times initial_values)[i + 1]? = some (stepFn ti vi tj)) ∧
    (∀ u0 u1 u2 : ℚ,
      solve stepFn [u0, u1, u2] initial_values =
        [initial_values, stepFn u0 initial_values u1,
          stepFn u1 (stepFn u0 initial_values u1) u2]) := by
  match times with
  | [] => exact absurd rfl hne
  | t0 :: rest =>
    refine ⟨?_, rfl, ?_, fun u0 u1 u2 => rfl⟩
    · simp [solve, solve_scan_length]
    · intro i ti tj vi h1 h2 h3
      have h2' : rest[i]? = some tj := by
        simpa using h2
      have h3' : (initial_values :: solve_scan stepFn t0 initial_values rest)[i]?
          = some vi := by
        simpa [solve] using h3
      have hg := solve_scan_getElem stepFn rest t0 initial_values i ti tj vi h1 h2' h3'
      simpa [solve] using hg

/-- Witness for C3 at the concrete times `[0, 1, 2]`. -/
theorem solve_structure_witness :
    (([0, 1, 2] : List ℚ) ≠ []) ∧
    (([0, 1, 2] : List ℚ).Chain' (· < ·) ∨ ([0, 1, 2] : List ℚ).Chain' (· > ·)) ∧
    ((solve (fun t v _ => fun i => v i + t) [0, 1, 2] (fun _ : Fin 1 => (7 : ℚ))).length
        = ([0, 1, 2] : List ℚ).length ∧
      (solve (fun t v _ => fun i => v i + t) [0, 1, 2] (fun _ : Fin 1 => (7 : ℚ))).head?
        = some (fun _ : Fin 1 => (7 : ℚ)) ∧
      (∀ (i : ℕ) (ti tj : ℚ) (vi : ValueField 1),
        ([0, 1, 2] : List ℚ)[i]? = some ti → ([0, 1, 2] : List ℚ)[i + 1]? = some tj →
        (solve (fun t v _ => fun i => v i + t) [0, 1, 2] (fun _ : Fin 1 => (7 : ℚ)))[i]?
          = some vi →
        (solve (fun t v _ => fun i => v i + t) [0, 1, 2] (fun _ : Fin 1 => (7 : ℚ)))[i + 1]?
          = some (fun j => vi j + ti)) ∧
      (∀ u0 u1 u2 : ℚ,
        solve (fun t v _ => fun i => v i + t) [u0, u1, u2] (fun _ : Fin 1 => (7 : ℚ)) =
          [fun _ : Fin 1 => (7 : ℚ), fun i : Fin 1 => (7 : ℚ) + u0,
            fun i : Fin 1 => ((7 : ℚ) + u0) + u1])) := by
  refine ⟨by simp, Or.inl (by simp [List.chain'_cons]), ?_⟩
  exact solve_structure (fun t v _ => fun i => v i + t) [0, 1, 2]
    (fun _ : Fin 1 => (7 : ℚ)) (by simp) (Or.inl (by simp [List.chain'_cons]))

theorem euler_none_time_zero_diss {nodes ndim : ℕ}
    (solver_settings : SolverSettings nodes ndim) (dynamics : Dynamics ndim)
    (grid : Grid nodes ndim) (time : ℚ) (values : ValueField nodes)
    (active_set : ActiveSet nodes) (max_time_step : ℚ)
    (hdiss : ∀ i a,
      euler_step_dissipation_coefficients solver_settings dynamics grid time values i a
        = 0) :
    (euler_step solver_settings dynamics grid time values active_set none
      max_time_step).1 = time + max_time_step := by
  have hden : time_step_denominator solver_settings dynamics grid time values = 0 := by
    refine qmax_all_zero _ fun x hx => ?_
    rcases List.mem_map.mp hx with ⟨i, _, rfl⟩
    exact Finset.sum_eq_zero fun a _ => by rw [hdiss i a, zero_div]
  show time + derived_time_step solver_settings.CFL_number
      (time_step_denominator solver_settings dynamics grid time values) max_time_step
    = time + max_time_step
  rw [hden, derived_time_step, if_pos rfl, qsign_mul_abs]

/-- C6: when the dissipation coefficients are all zero (so the IEEE
stability bound is infinite), the CFL-derived step falls back to exactly
the externally supplied maximum time step. -/
theorem euler_step_zero_dissipation_fallback {nodes ndim : ℕ}
    (solver_settings : SolverSettings nodes ndim) (dynamics : Dynamics ndim)
    (grid : Grid nodes ndim) (time : ℚ) (values : ValueField nodes)
    (active_set : ActiveSet nodes) (max_time_step : ℚ)
    (hdiss : ∀ i a,
      euler_step_dissipation_coefficients solver_settings dynamics grid time values i a
        = 0)
    (hCFL : 0 < solver_settings.CFL_number) :
    (euler_step solver_settings dynamics grid time values active_set none
      max_time_step).1 = time + max_time_step :=
  euler_none_time_zero_diss solver_settings dynamics grid time values active_set
    max_time_step hdiss

/-- Witness for C6 at a concrete instance. -/
theorem euler_step_zero_dissipation_fallback_witness :
    (∀ i a, euler_step_dissipation_coefficients tinySettings zeroDynamics tinyGrid 0
      (fun _ => 0) i a = 0) ∧
    0 < tinySettings.CFL_number ∧
    (euler_step tinySettings zeroDynamics tinyGrid 0 (fun _ => 0) (fun _ => true)
      none 5).1 = 0 + 5 :=
  ⟨fun _ _ => rfl, by norm_num [tinySettings, settings_with_CFL],
    euler_step_zero_dissipation_fallback tinySettings zeroDynamics tinyGrid 0
      (fun _ => 0) (fun _ => true) 5 (fun _ _ => rfl)
      (by norm_num [tinySettings, settings_with_CFL])⟩

/-- C8: `with_accuracy` returns the configuration error exactly for
accuracy arguments outside the closed set of `SolverAccuracyEnum` values,
and hence never silently substitutes a default scheme for an unrecognized
preset. -/
theorem with_accuracy_rejects_unknown (accuracy : String) :
    SolverSettings.with_accuracy accuracy = Except.error with_accuracy_error_msg ↔
      accuracy ∉ solver_accuracy_values := by
  unfold SolverSettings.with_accuracy solver_accuracy_values
  split_ifs with h1 h2 h3 h4 h5 <;> simp_all

/-- C9 amended: the missing-dependency error of `step` and `solve` is
raised exactly when `progress_bar` is true and `tqdm` is unavailable; the
default of `progress_bar` is true, so a caller must explicitly pass
`progress_bar=False` to avoid the error when the dependency is absent. -/
theorem progress_bar_error_iff {nodes ndim : ℕ}
    (tqdm_available progress_bar : Bool) (solver_settings : SolverSettings nodes ndim)
    (dynamics : Dynamics ndim) (grid : Grid nodes ndim) (time : ℚ)
    (values : ValueField nodes) (target_time : ℚ) (active_set : ActiveSet nodes)
    (fuel : ℕ) (stepFn : ℚ → ValueField nodes → ℚ → ValueField nodes)
    (times : List ℚ) :
    (step_checked tqdm_available progress_bar solver_settings dynamics grid time values
        target_time active_set fuel = Except.error try_get_progress_bar_msg ↔
      progress_bar = true ∧ tqdm_available = false) ∧
    (solve_checked tqdm_available progress_bar stepFn times values
        = Except.error try_get_progress_bar_msg ↔
      progress_bar = true ∧ tqdm_available = false) ∧
    step_progress_bar_default = true := by
  cases progress_bar <;> cases tqdm_available <;>
    simp [step_checked, solve_checked, try_get_progress_bar, step_progress_bar_default]

/-- Counterexample for C9 as stated: with `tqdm` absent, a call made with
the default `progress_bar` value (i.e., one that does not explicitly
request progress reporting) raises the missing-capability error. -/
theorem step_default_progress_bar_raises :
    step_checked false step_progress_bar_default tinySettings zeroDynamics tinyGrid 0
      (fun _ => 0) 1 (fun _ => true) 0 = Except.error try_get_progress_bar_msg := rfl

theorem euler_step_inactive {nodes ndim : ℕ}
    (solver_settings : SolverSettings nodes ndim) (dynamics : Dynamics ndim)
    (grid : Grid nodes ndim) (time : ℚ) (values : ValueField nodes)
    (active_set : ActiveSet nodes) (time_step : Option ℚ) (max_time_step : ℚ)
    (i : Fin nodes)
    (hP : ∀ f : ValueField nodes, ∀ j, f j = 0 →
      solver_settings.hamiltonian_postprocessor f j = 0)
    (hi : active_set i = false) :
    (euler_step solver_settings dynamics grid time values active_set time_step
      max_time_step).2 i = values i := by
  have harr : (fun j => euler_step_time_direction time_step max_time_step *
      euler_step_masked_hamiltonian solver_settings dynamics grid time values
        active_set time_step max_time_step j) i = 0 := by
    simp [euler_step_masked_hamiltonian, hi]
  have hdv : euler_step_dvalues_dt solver_settings dynamics grid time values active_set
      time_step max_time_step i = 0 := by
    simp only [euler_step_dvalues_dt]
    rw [hP _ i harr, neg_zero]
  show values i + euler_step_time_step solver_settings dynamics grid time values
      time_step max_time_step *
    euler_step_dvalues_dt solver_settings dynamics grid time values active_set
      time_step max_time_step i = values i
  rw [hdv, mul_zero, add_zero]

theorem run_time_integrator_inactive {nodes ndim : ℕ} (integrator : TimeIntegrator)
    (solver_settings : SolverSettings nodes ndim) (dynamics : Dynamics ndim)
    (grid : Grid nodes ndim) (time target_time : ℚ) (values : ValueField nodes)
    (active_set : ActiveSet nodes) (i : Fin nodes)
    (hP : ∀ f : ValueField nodes, ∀ j, f j = 0 →
      solver_settings.hamiltonian_postprocessor f j = 0)
    (hV : ∀ (t : ℚ) (w : ValueField nodes) (j : Fin nodes), active_set j = false →
      solver_settings.value_postprocessor t w j = w j)
    (hi : active_set i = false) :
    (run_time_integrator integrator solver_settings dynamics grid time values
      target_time active_set).2 i = values i := by
  have h1 : (euler_step solver_settings dynamics grid time values active_set none
      (target_time - time)).2 i = values i :=
    euler_step_inactive solver_settings dynamics grid time values active_set none
      (target_time - time) i hP hi
  cases integrator with
  | first_order_tvd_rk =>
    calc (run_time_integrator TimeIntegrator.first_order_tvd_rk solver_settings
          dynamics grid time values target_time active_set).2 i
        = (euler_step solver_settings dynamics grid time values active_set none
            (target_time - time)).2 i := hV _ _ i hi
      _ = values i := h1
  | second_order_tvd_rk =>
    have h2 : (euler_step solver_settings dynamics grid
        (euler_step solver_settings dynamics grid time values active_set none
          (target_time - time)).1
        (euler_step solver_settings dynamics grid time values active_set none
          (target_time - time)).2 active_set
        (some ((euler_step solver_settings dynamics grid time values active_set none
          (target_time - time)).1 - time)) 0).2 i
        = (euler_step solver_settings dynamics grid time values active_set none
            (target_time - time)).2 i :=
      euler_step_inactive solver_settings dynamics grid _ _ active_set _ 0 i hP hi
    calc (run_time_integrator TimeIntegrator.second_order_tvd_rk solver_settings
          dynamics grid time values target_time active_set).2 i
        = (values i + (euler_step solver_settings dynamics grid
            (euler_step solver_settings dynamics grid time values active_set none
              (target_time - time)).1
            (euler_step solver_settings dynamics grid time values active_set none
              (target_time - time)).2 active_set
            (some ((euler_step solver_settings dynamics grid time values active_set
              none (target_time - time)).1 - time)) 0).2 i) / 2 := hV _ _ i hi
      _ = (values i + values i) / 2 := by rw [h2, h1]
      _ = values i := by ring
  | third_order_tvd_rk =>
    have h2 : (euler_step solver_settings dynamics grid
        (euler_step solver_settings dynamics grid time values active_set none
          (target_time - time)).1
        (euler_step solver_settings dynamics grid time values active_set none
          (target_time - time)).2 active_set
        (some ((euler_step solver_settings dynamics grid time values active_set none
          (target_time - time)).1 - time)) 0).2 i
        = (euler_step solver_settings dynamics grid time values active_set none
            (target_time - time)).2 i :=
      euler_step_inactive solver_settings dynamics grid _ _ active_set _ 0 i hP hi
    have h3 : (euler_step solver_settings dynamics grid
        (time + ((euler_step solver_settings dynamics grid time values active_set none
          (target_time - time)).1 - time) / 2)
        (fun k => (3 / 4) * values k + (1 / 4) * (euler_step solver_settings dynamics
          grid
          (euler_step solver_settings dynamics grid time values active_set none
            (target_time - time)).1
          (euler_step solver_settings dynamics grid time values active_set none
            (target_time - time)).2 active_set
          (some ((euler_step solver_settings dynamics grid time values active_set none
            (target_time - time)).1 - time)) 0).2 k)
        active_set
        (some ((euler_step solver_settings dynamics grid time values active_set none
          (target_time - time)).1 - time)) 0).2 i
        = (3 / 4) * values i + (1 / 4) * (euler_step solver_settings dynamics grid
          (euler_step solver_settings dynamics grid time values active_set none
            (target_time - time)).1
          (euler_step solver_settings dynamics grid time values active_set none
            (target_time - time)).2 active_set
          (some ((euler_step solver_settings dynamics grid time values active_set none
            (target_time - time)).1 - time)) 0).2 i :=
      euler_step_inactive solver_settings dynamics grid _ _ active_set _ 0 i hP hi
    calc (run_time_integrator TimeIntegrator.third_order_tvd_rk solver_settings
          dynamics grid time values target_time active_set).2 i
        = (1 / 3) * values i + (2 / 3) * (euler_step solver_settings dynamics grid
            (time + ((euler_step solver_settings dynamics grid time values active_set
              none (target_time - time)).1 - time) / 2)
            (fun k => (3 / 4) * values k + (1 / 4) * (euler_step solver_settings
              dynamics grid
              (euler_step solver_settings dynamics grid time values active_set none
                (target_time - time)).1
              (euler_step solver_settings dynamics grid time values active_set none
                (target_time - time)).2 active_set
              (some ((euler_step solver_settings dynamics grid time values active_set
                none (target_time - time)).1 - time)) 0).2 k)
            active_set
            (some ((euler_step solver_settings dynamics grid time values active_set
              none (target_time - time)).1 - time)) 0).2 i := hV _ _ i hi
      _ = values i := by rw [h3, h2, h1]; ring

theorem step_loop_inactive {nodes ndim : ℕ}
    (solver_settings : SolverSettings nodes ndim) (dynamics : Dynamics ndim)
    (grid : Grid nodes ndim) (target_time : ℚ) (active_set : ActiveSet nodes)
    (i : Fin nodes)
    (hP : ∀ f : ValueField nodes, ∀ j, f j = 0 →
      solver_settings.hamiltonian_postprocessor f j = 0)
    (hV : ∀ (t : ℚ) (w : ValueField nodes) (j : Fin nodes), active_set j = false →
      solver_settings.value_postprocessor t w j = w j)
    (hi : active_set i = false) :
    ∀ (fuel : ℕ) (t : ℚ) (v : ValueField nodes),
      (step_loop solver_settings dynamics grid target_time active_set fuel (t, v)).2 i
        = v i := by
  intro fuel
  induction fuel with
  | zero => intro t v; rfl
  | succ n ih =>
    intro t v
    rw [step_loop]
    by_cases hc : |target_time - (t, v).1| > 0
    · rw [if_pos hc]
      calc (step_loop solver_settings dynamics grid target_time active_set n
            (sub_step solver_settings dynamics grid target_time active_set (t, v))).2 i
          = (sub_step solver_settings dynamics grid target_time active_set (t, v)).2
              i :=
            ih (sub_step solver_settings dynamics grid target_time active_set
              (t, v)).1
              (sub_step solver_settings dynamics grid target_time active_set (t, v)).2
        _ = v i :=
            run_time_integrator_inactive solver_settings.time_integrator
              solver_settings dynamics grid t target_time v active_set i hP hV hi
    · rw [if_neg hc]

/-- C4 amended: a node marked inactive is bit-for-bit unchanged by
`euler_step`, by each integrator, and by `step`, provided the Hamiltonian
postprocessor preserves zero entries pointwise (as both built-ins,
the identity and `backwards_reachable_tube`, do) and the value
postprocessor leaves inactive entries unchanged (as the identity default
does); the claim's quantification over arbitrary postprocessors is
refuted by `step_inactive_postprocessor_counterexample`. -/
theorem step_inactive_nodes_unchanged {nodes ndim : ℕ}
    (solver_settings : SolverSettings nodes ndim) (dynamics : Dynamics ndim)
    (grid : Grid nodes ndim) (time target_time max_time_step : ℚ)
    (values : ValueField nodes) (active_set : ActiveSet nodes)
    (time_step : Option ℚ) (integrator : TimeIntegrator) (fuel : ℕ) (i : Fin nodes)
    (hP : ∀ f : ValueField nodes, ∀ j, f j = 0 →
      solver_settings.hamiltonian_postprocessor f j = 0)
    (hV : ∀ (t : ℚ) (w : ValueField nodes) (j : Fin nodes), active_set j = false →
      solver_settings.value_postprocessor t w j = w j)
    (hi : active_set i = false) :
    (euler_step solver_settings dynamics grid time values active_set time_step
      max_time_step).2 i = values i ∧
    (run_time_integrator integrator solver_settings dynamics grid time values
      target_time active_set).2 i = values i ∧
    step solver_settings dynamics grid time values target_time active_set fuel i
      = values i :=
  ⟨euler_step_inactive solver_settings dynamics grid time values active_set time_step
      max_time_step i hP hi,
    run_time_integrator_inactive integrator solver_settings dynamics grid time
      target_time values active_set i hP hV hi,
    step_loop_inactive solver_settings dynamics grid target_time active_set i hP hV hi
      fuel time values⟩

/-- Witness for the amended C4 at a concrete instance (identity
postprocessors, all nodes inactive). -/
theorem step_inactive_nodes_unchanged_witness :
    (∀ f : ValueField 1, ∀ j, f j = 0 →
      tinySettings.hamiltonian_postprocessor f j = 0) ∧
    (∀ (t : ℚ) (w : ValueField 1) (j : Fin 1), (fun _ : Fin 1 => false) j = false →
      tinySettings.value_postprocessor t w j = w j) ∧
    ((fun _ : Fin 1 => false) (0 : Fin 1) = false) ∧
    ((euler_step tinySettings oneDynamics tinyGrid 0 (fun _ => 3) (fun _ => false)
        (some 1) 0).2 (0 : Fin 1) = (fun _ : Fin 1 => (3 : ℚ)) (0 : Fin 1) ∧
      (run_time_integrator TimeIntegrator.third_order_tvd_rk tinySettings oneDynamics
        tinyGrid 0 (fun _ => 3) 1 (fun _ => false)).2 (0 : Fin 1)
        = (fun _ : Fin 1 => (3 : ℚ)) (0 : Fin 1) ∧
      step tinySettings oneDynamics tinyGrid 0 (fun _ => 3) 1 (fun _ => false) 4
        (0 : Fin 1) = (fun _ : Fin 1 => (3 : ℚ)) (0 : Fin 1)) :=
  ⟨fun _ _ h => h, fun _ _ _ _ => rfl, rfl,
    step_inactive_nodes_unchanged tinySettings oneDynamics tinyGrid 0 1 0
      (fun _ => 3) (fun _ => false) (some 1) TimeIntegrator.third_order_tvd_rk 4
      (0 : Fin 1) (fun _ _ h => h) (fun _ _ _ _ => rfl) rfl⟩

/-- Counterexample for C4 as stated: with a Hamiltonian postprocessor
that returns the constant-1 array (a choice the claim quantifies over),
a `step` call changes the value of an inactive node. -/
theorem step_inactive_postprocessor_counterexample :
    step constOneSettings oneDynamics tinyGrid 0 (fun _ => 0) 1 (fun _ => false) 1
      (0 : Fin 1) ≠ (0 : ℚ) := by
  simp [step, step_loop, sub_step, run_time_integrator,
    first_order_total_variation_diminishing_runge_kutta, euler_step,
    euler_step_time_step, euler_step_dvalues_dt, euler_step_masked_hamiltonian,
    euler_step_time_direction, euler_step_dissipation_coefficients,
    derived_time_step, time_step_denominator, lax_friedrichs_numerical_hamiltonian,
    constOneSettings, tinySettings, settings_with_CFL, zeroDissipation, oneDynamics,
    tinyGrid, qmax, qsign, List.finRange]

theorem qsign_neg (q : ℚ) : qsign (-q) = -(qsign q) := by
  rcases lt_trichotomy 0 q with h | h | h
  · rw [qsign_of_pos h, qsign_of_neg (neg_lt_zero.mpr h)]
  · rw [← h, neg_zero]
    simp [qsign]
  · rw [qsign_of_neg h, qsign_of_pos (neg_pos.mpr h), neg_neg]

theorem derived_time_step_neg (CFL_number den max_time_step : ℚ) :
    derived_time_step CFL_number den (-max_time_step)
      = -(derived_time_step CFL_number den max_time_step) := by
  simp only [derived_time_step, abs_neg, qsign_neg, neg_mul]

theorem backward_negation_dvalues {nodes ndim : ℕ}
    (solver_settings : SolverSettings nodes ndim) (dynamics : Dynamics ndim)
    (grid : Grid nodes ndim) (time : ℚ) (values : ValueField nodes)
    (active_set : ActiveSet nodes)
    (time_stepL : Option ℚ) (max_time_stepL : ℚ)
    (time_stepR : Option ℚ) (max_time_stepR : ℚ)
    (hdirL : euler_step_time_direction time_stepL max_time_stepL = -1)
    (hdirR : euler_step_time_direction time_stepR max_time_stepR = 1)
    (hodd : ∀ f : ValueField nodes,
      solver_settings.hamiltonian_postprocessor (fun j => -(f j))
        = fun j => -(solver_settings.hamiltonian_postprocessor f j)) :
    euler_step_dvalues_dt solver_settings (negate_hamiltonian dynamics) grid time
      values active_set time_stepR max_time_stepR
      = fun i => -(euler_step_dvalues_dt solver_settings dynamics grid time values
        active_set time_stepL max_time_stepL i) := by
  have hdiss : euler_step_dissipation_coefficients solver_settings
      (negate_hamiltonian dynamics) grid time values
      = euler_step_dissipation_coefficients solver_settings dynamics grid time
        values := rfl
  have hham : ∀ st t v g, (negate_hamiltonian dynamics).hamiltonian st t v g
      = -(dynamics.hamiltonian st t v g) := fun _ _ _ _ => rfl
  have harr : (fun j => euler_step_time_direction time_stepR max_time_stepR *
      euler_step_masked_hamiltonian solver_settings (negate_hamiltonian dynamics)
        grid time values active_set time_stepR max_time_stepR j)
      = fun j => -((fun k => euler_step_time_direction time_stepL max_time_stepL *
        euler_step_masked_hamiltonian solver_settings dynamics grid time values
          active_set time_stepL max_time_stepL k) j) := by
    funext j
    simp only [euler_step_masked_hamiltonian, lax_friedrichs_numerical_hamiltonian,
      hdiss, hham]
    rw [hdirL, hdirR]
    by_cases hj : active_set j
    · simp only [hj, if_true]
      ring
    · simp only [hj, Bool.false_eq_true, if_false]
      ring
  funext i
  simp only [euler_step_dvalues_dt, harr, hodd, neg_neg]

/-- C5 amended: for every `euler_step` taken with negative time direction
— either an explicit negative `time_step`, or a CFL-derived step with a
negative `max_time_step` — the resulting value field equals that of the
corresponding forward `euler_step` of the same magnitude with the
negated-Hamiltonian dynamics (same `partial_max_magnitudes`), provided
the Hamiltonian postprocessor is odd (as the identity default is); the
time components necessarily differ (the steps advance in opposite
directions), and for a non-odd postprocessor such as
`backwards_reachable_tube` even the value fields differ
(`euler_step_backward_negation_counterexample`). -/
theorem euler_step_backward_negation {nodes ndim : ℕ}
    (solver_settings : SolverSettings nodes ndim) (dynamics : Dynamics ndim)
    (grid : Grid nodes ndim) (time : ℚ) (values : ValueField nodes)
    (active_set : ActiveSet nodes) (ts max_time_step max_time_step' m : ℚ)
    (hts : ts < 0) (hm : m < 0)
    (hodd : ∀ f : ValueField nodes,
      solver_settings.hamiltonian_postprocessor (fun j => -(f j))
        = fun j => -(solver_settings.hamiltonian_postprocessor f j)) :
    ((euler_step solver_settings dynamics grid time values active_set (some ts)
      max_time_step).2
      = (euler_step solver_settings (negate_hamiltonian dynamics) grid time values
        active_set (some (-ts)) max_time_step').2) ∧
    ((euler_step solver_settings dynamics grid time values active_set none m).2
      = (euler_step solver_settings (negate_hamiltonian dynamics) grid time values
        active_set none (-m)).2) := by
  constructor
  · have hdv := backward_negation_dvalues solver_settings dynamics grid time values
      active_set (some ts) max_time_step (some (-ts)) max_time_step'
      (qsign_of_neg hts) (qsign_of_pos (neg_pos.mpr hts)) hodd
    funext i
    have hdvi : euler_step_dvalues_dt solver_settings (negate_hamiltonian dynamics)
        grid time values active_set (some (-ts)) max_time_step' i
        = -(euler_step_dvalues_dt solver_settings dynamics grid time values
          active_set (some ts) max_time_step i) := congrFun hdv i
    show values i + ts * euler_step_dvalues_dt solver_settings dynamics grid time
        values active_set (some ts) max_time_step i
      = values i + (-ts) * euler_step_dvalues_dt solver_settings
        (negate_hamiltonian dynamics) grid time values active_set (some (-ts))
        max_time_step' i
    rw [hdvi]
    ring
  · have hdv := backward_negation_dvalues solver_settings dynamics grid time values
      active_set none m none (-m)
      (qsign_of_neg hm) (qsign_of_pos (neg_pos.mpr hm)) hodd
    funext i
    have hdvi : euler_step_dvalues_dt solver_settings (negate_hamiltonian dynamics)
        grid time values active_set none (-m) i
        = -(euler_step_dvalues_dt solver_settings dynamics grid time values
          active_set none m i) := congrFun hdv i
    have hts_eq : euler_step_time_step solver_settings (negate_hamiltonian dynamics)
        grid time values none (-m)
        = -(euler_step_time_step solver_settings dynamics grid time values none
          m) := by
      show derived_time_step solver_settings.CFL_number
          (time_step_denominator solver_settings (negate_hamiltonian dynamics) grid
            time values) (-m)
        = -(derived_time_step solver_settings.CFL_number
          (time_step_denominator solver_settings dynamics grid time values) m)
      have hden : time_step_denominator solver_settings (negate_hamiltonian dynamics)
          grid time values
          = time_step_denominator solver_settings dynamics grid time values := rfl
      rw [hden, derived_time_step_neg]
    show values i + euler_step_time_step solver_settings dynamics grid time values
        none m * euler_step_dvalues_dt solver_settings dynamics grid time values
        active_set none m i
      = values i + euler_step_time_step solver_settings (negate_hamiltonian dynamics)
        grid time values none (-m) * euler_step_dvalues_dt solver_settings
        (negate_hamiltonian dynamics) grid time values active_set none (-m) i
    rw [hts_eq, hdvi]
    ring

/-- Witness for the amended C5 at a concrete instance (identity
postprocessor, explicit backward step −1 and derived backward step with
maximum step −2). -/
theorem euler_step_backward_negation_witness :
    ((-1 : ℚ) < 0) ∧ ((-2 : ℚ) < 0) ∧
    (∀ f : ValueField 1,
      tinySettings.hamiltonian_postprocessor (fun j => -(f j))
        = fun j => -(tinySettings.hamiltonian_postprocessor f j)) ∧
    (((euler_step tinySettings oneDynamics tinyGrid 0 (fun _ => 0) (fun _ => true)
        (some (-1)) 0).2
      = (euler_step tinySettings (negate_hamiltonian oneDynamics) tinyGrid 0
        (fun _ => 0) (fun _ => true) (some (-(-1))) 7).2) ∧
    ((euler_step tinySettings oneDynamics tinyGrid 0 (fun _ => 0) (fun _ => true)
        none (-2)).2
      = (euler_step tinySettings (negate_hamiltonian oneDynamics) tinyGrid 0
        (fun _ => 0) (fun _ => true) none (-(-2))).2)) :=
  ⟨by norm_num, by norm_num, fun _ => rfl,
    euler_step_backward_negation tinySettings oneDynamics tinyGrid 0 (fun _ => 0)
      (fun _ => true) (-1) 0 7 (-2) (by norm_num) (by norm_num) (fun _ => rfl)⟩

/-- Counterexample for C5 as stated: with the `backwards_reachable_tube`
Hamiltonian postprocessor (a legal settings choice), stepping backward by
1 and stepping forward by 1 with the negated Hamiltonian produce different
value fields. -/
theorem euler_step_backward_negation_counterexample :
    (euler_step brtSettings oneDynamics tinyGrid 0 (fun _ => 0) (fun _ => true)
        (some (-1)) 0).2 (0 : Fin 1)
      ≠ (euler_step brtSettings (negate_hamiltonian oneDynamics) tinyGrid 0
        (fun _ => 0) (fun _ => true) (some 1) 0).2 (0 : Fin 1) := by
  simp [euler_step, euler_step_time_step, euler_step_dvalues_dt,
    euler_step_masked_hamiltonian, euler_step_time_direction,
    euler_step_dissipation_coefficients, lax_friedrichs_numerical_hamiltonian,
    negate_hamiltonian, backwards_reachable_tube, brtSettings, tinySettings,
    settings_with_CFL, zeroDissipation, oneDynamics, tinyGrid, qsign]
  norm_num [min_def]

theorem zero_ham_masked {nodes ndim : ℕ}
    (solver_settings : SolverSettings nodes ndim) (dynamics : Dynamics ndim)
    (grid : Grid nodes ndim) (time : ℚ) (values : ValueField nodes)
    (active_set : ActiveSet nodes) (time_step : Option ℚ) (max_time_step : ℚ)
    (hH : ∀ st t v g, dynamics.hamiltonian st t v g = 0)
    (hdiss : ∀ pmm sts t v l r j a,
      solver_settings.artificial_dissipation_scheme pmm sts t v l r j a = 0) :
    euler_step_masked_hamiltonian solver_settings dynamics grid time values active_set
      time_step max_time_step = fun _ => 0 := by
  have hdc : ∀ (k : Fin nodes) (a : Fin ndim),
      euler_step_dissipation_coefficients solver_settings dynamics grid time values k a
        = 0 :=
    fun k a => hdiss _ _ _ _ _ _ k a
  funext j
  simp [euler_step_masked_hamiltonian, lax_friedrichs_numerical_hamiltonian, hH, hdc]

theorem zero_ham_dvalues {nodes ndim : ℕ}
    (solver_settings : SolverSettings nodes ndim) (dynamics : Dynamics ndim)
    (grid : Grid nodes ndim) (time : ℚ) (values : ValueField nodes)
    (active_set : ActiveSet nodes) (time_step : Option ℚ) (max_time_step : ℚ)
    (hH : ∀ st t v g, dynamics.hamiltonian st t v g = 0)
    (hdiss : ∀ pmm sts t v l r j a,
      solver_settings.artificial_dissipation_scheme pmm sts t v l r j a = 0)
    (hP0 : solver_settings.hamiltonian_postprocessor (fun _ => 0) = fun _ => 0) :
    euler_step_dvalues_dt solver_settings dynamics grid time values active_set
      time_step max_time_step = fun _ => 0 := by
  have hm := zero_ham_masked solver_settings dynamics grid time values active_set
    time_step max_time_step hH hdiss
  funext i
  simp [euler_step_dvalues_dt, hm, hP0]

theorem zero_ham_euler_values {nodes ndim : ℕ}
    (solver_settings : SolverSettings nodes ndim) (dynamics : Dynamics ndim)
    (grid : Grid nodes ndim) (time : ℚ) (values : ValueField nodes)
    (active_set : ActiveSet nodes) (time_step : Option ℚ) (max_time_step : ℚ)
    (hH : ∀ st t v g, dynamics.hamiltonian st t v g = 0)
    (hdiss : ∀ pmm sts t v l r j a,
      solver_settings.artificial_dissipation_scheme pmm sts t v l r j a = 0)
    (hP0 : solver_settings.hamiltonian_postprocessor (fun _ => 0) = fun _ => 0) :
    (euler_step solver_settings dynamics grid time values active_set time_step
      max_time_step).2 = values := by
  have hdv := zero_ham_dvalues solver_settings dynamics grid time values active_set
    time_step max_time_step hH hdiss hP0
  funext i
  show values i + euler_step_time_step solver_settings dynamics grid time values
      time_step max_time_step *
    euler_step_dvalues_dt solver_settings dynamics grid time values active_set
      time_step max_time_step i = values i
  simp [hdv]

theorem zero_ham_integrator {nodes ndim : ℕ} (integrator : TimeIntegrator)
    (solver_settings : SolverSettings nodes ndim) (dynamics : Dynamics ndim)
    (grid : Grid nodes ndim) (time target_time : ℚ) (values : ValueField nodes)
    (active_set : ActiveSet nodes)
    (hH : ∀ st t v g, dynamics.hamiltonian st t v g = 0)
    (hdiss : ∀ pmm sts t v l r j a,
      solver_settings.artificial_dissipation_scheme pmm sts t v l r j a = 0)
    (hP0 : solver_settings.hamiltonian_postprocessor (fun _ => 0) = fun _ => 0)
    (hV : ∀ (t : ℚ) (w : ValueField nodes),
      solver_settings.value_postprocessor t w = w) :
    run_time_integrator integrator solver_settings dynamics grid time values
      target_time active_set = (target_time, values) := by
  have hdc : ∀ (t' : ℚ) (k : Fin nodes) (a : Fin ndim),
      euler_step_dissipation_coefficients solver_settings dynamics grid t' values k a
        = 0 :=
    fun t' k a => hdiss _ _ _ _ _ _ k a
  have e1 : euler_step solver_settings dynamics grid time values active_set none
      (target_time - time) = (target_time, values) := by
    refine Prod.ext ?_ ?_
    · rw [euler_none_time_zero_diss solver_settings dynamics grid time values
        active_set (target_time - time) (hdc time)]
      ring
    · exact zero_ham_euler_values solver_settings dynamics grid time values active_set
        none (target_time - time) hH hdiss hP0
  have e2 : ∀ (t' ts mts : ℚ) (w : ValueField nodes),
      (euler_step solver_settings dynamics grid t' w active_set (some ts)
        mts).2 = w :=
    fun t' ts mts w => zero_ham_euler_values solver_settings dynamics grid t' w
      active_set (some ts) mts hH hdiss hP0
  cases integrator with
  | first_order_tvd_rk =>
    simp only [run_time_integrator,
      first_order_total_variation_diminishing_runge_kutta, e1, hV]
  | second_order_tvd_rk =>
    simp only [run_time_integrator,
      second_order_total_variation_diminishing_runge_kutta, e1]
    simp only [e2, hV]
    refine Prod.ext rfl ?_
    funext i
    show (values i + values i) / 2 = values i
    ring
  | third_order_tvd_rk =>
    simp only [run_time_integrator,
      third_order_total_variation_diminishing_runge_kutta, e1]
    simp only [e2, hV]
    refine Prod.ext rfl ?_
    funext i
    show (1 / 3) * values i + (2 / 3) * ((3 / 4) * values i + (1 / 4) * values i)
      = values i
    ring

theorem zero_ham_step_loop {nodes ndim : ℕ}
    (solver_settings : SolverSettings nodes ndim) (dynamics : Dynamics ndim)
    (grid : Grid nodes ndim) (target_time : ℚ) (values : ValueField nodes)
    (active_set : ActiveSet nodes)
    (hH : ∀ st t v g, dynamics.hamiltonian st t v g = 0)
    (hdiss : ∀ pmm sts t v l r j a,
      solver_settings.artificial_dissipation_scheme pmm sts t v l r j a = 0)
    (hP0 : solver_settings.hamiltonian_postprocessor (fun _ => 0) = fun _ => 0)
    (hV : ∀ (t : ℚ) (w : ValueField nodes),
      solver_settings.value_postprocessor t w = w) :
    ∀ (fuel : ℕ) (t : ℚ),
      (step_loop solver_settings dynamics grid target_time active_set fuel
        (t, values)).2 = values := by
  intro fuel
  induction fuel with
  | zero => intro t; rfl
  | succ n ih =>
    intro t
    rw [step_loop]
    by_cases hc : |target_time - (t, values).1| > 0
    · rw [if_pos hc]
      have hsub : sub_step solver_settings dynamics grid target_time active_set
          (t, values) = (target_time, values) :=
        zero_ham_integrator solver_settings.time_integrator solver_settings dynamics
          grid t target_time values active_set hH hdiss hP0 hV
      rw [hsub]
      exact ih target_time
    · rw [if_neg hc]

/-- C7 amended: for a dynamics model whose Hamiltonian is identically
zero, every value field is a fixed point of `euler_step`, of each of the
three integrators, and of `step` for any number of sub-steps, provided
the artificial-dissipation scheme returns zero coefficients, the
Hamiltonian postprocessor maps the zero array to the zero array, the
value postprocessor is the identity (all defaults except the dissipation
scheme, which the global Lax-Friedrichs default makes zero exactly when
the wave-speed bounds vanish), and the CFL number is positive; with a
nonzero dissipation coefficient the claim as stated is refuted by
`zero_hamiltonian_not_fixed_point_counterexample`. -/
theorem zero_hamiltonian_fixed_point {nodes ndim : ℕ}
    (solver_settings : SolverSettings nodes ndim) (dynamics : Dynamics ndim)
    (grid : Grid nodes ndim) (time target_time max_time_step : ℚ)
    (values : ValueField nodes) (active_set : ActiveSet nodes)
    (time_step : Option ℚ) (integrator : TimeIntegrator) (fuel : ℕ)
    (hH : ∀ st t v g, dynamics.hamiltonian st t v g = 0)
    (hdiss : ∀ pmm sts t v l r j a,
      solver_settings.artificial_dissipation_scheme pmm sts t v l r j a = 0)
    (hP0 : solver_settings.hamiltonian_postprocessor (fun _ => 0) = fun _ => 0)
    (hV : ∀ (t : ℚ) (w : ValueField nodes),
      solver_settings.value_postprocessor t w = w)
    (hCFL : 0 < solver_settings.CFL_number) :
    (euler_step solver_settings dynamics grid time values active_set time_step
      max_time_step).2 = values ∧
    run_time_integrator integrator solver_settings dynamics grid time values
      target_time active_set = (target_time, values) ∧
    step solver_settings dynamics grid time values target_time active_set fuel
      = values :=
  ⟨zero_ham_euler_values solver_settings dynamics grid time values active_set
      time_step max_time_step hH hdiss hP0,
    zero_ham_integrator integrator solver_settings dynamics grid time target_time
      values active_set hH hdiss hP0 hV,
    zero_ham_step_loop solver_settings dynamics grid target_time values active_set
      hH hdiss hP0 hV fuel time⟩

/-- Witness for the amended C7 at a concrete instance. -/
theorem zero_hamiltonian_fixed_point_witness :
    (∀ st t v g, zeroDynamics.hamiltonian st t v g = 0) ∧
    (∀ pmm sts t v l r j a,
      tinySettings.artificial_dissipation_scheme pmm sts t v l r j a = 0) ∧
    (tinySettings.hamiltonian_postprocessor (fun _ => 0) = fun _ => 0) ∧
    (∀ (t : ℚ) (w : ValueField 1), tinySettings.value_postprocessor t w = w) ∧
    (0 < tinySettings.CFL_number) ∧
    ((euler_step tinySettings zeroDynamics tinyGrid 0 (fun _ => 9) (fun _ => true)
        none 3).2 = (fun _ : Fin 1 => (9 : ℚ)) ∧
      run_time_integrator TimeIntegrator.second_order_tvd_rk tinySettings zeroDynamics
        tinyGrid 0 (fun _ => 9) 1 (fun _ => true)
        = (1, fun _ : Fin 1 => (9 : ℚ)) ∧
      step tinySettings zeroDynamics tinyGrid 0 (fun _ => 9) 1 (fun _ => true) 5
        = (fun _ : Fin 1 => (9 : ℚ))) :=
  ⟨fun _ _ _ _ => rfl, fun _ _ _ _ _ _ _ _ => rfl, rfl, fun _ _ => rfl,
    by norm_num [tinySettings, settings_with_CFL],
    zero_hamiltonian_fixed_point tinySettings zeroDynamics tinyGrid 0 1 3
      (fun _ => 9) (fun _ => true) none TimeIntegrator.second_order_tvd_rk 5
      (fun _ _ _ _ => rfl) (fun _ _ _ _ _ _ _ _ => rfl) rfl (fun _ _ => rfl)
      (by norm_num [tinySettings, settings_with_CFL])⟩

/-- Counterexample for C7 as stated: with an identically-zero Hamiltonian
but a nonzero dissipation coefficient (a legal settings choice) and a
value field with differing one-sided gradients, one first-order
integrator step changes the value field. -/
theorem zero_hamiltonian_not_fixed_point_counterexample :
    (run_time_integrator TimeIntegrator.first_order_tvd_rk tinySettingsOneDiss
      zeroDynamics gradGrid 0 (fun _ => 0) 1 (fun _ => true)).2 (0 : Fin 1)
      ≠ (0 : ℚ) := by
  simp [run_time_integrator, first_order_total_variation_diminishing_runge_kutta,
    euler_step, euler_step_time_step, euler_step_dvalues_dt,
    euler_step_masked_hamiltonian, euler_step_time_direction,
    euler_step_dissipation_coefficients, derived_time_step, time_step_denominator,
    lax_friedrichs_numerical_hamiltonian, tinySettingsOneDiss, settings_with_CFL,
    oneDissipation, gradGrid, zeroDynamics, qmax, qsign, List.finRange]
  norm_num [min_def]

/-- C10: `SolverSettings` construction accepts any `CFL_number` (here −5)
without validation, and `euler_step` uses it unchecked: with unit
dissipation coefficients and `max_time_step = 10`, the derived step is
`min(−5·1, 10) = −5`, so the step even proceeds in the wrong direction. -/
theorem CFL_number_not_validated :
    (∀ (nodes ndim : ℕ) (dissipation : DissipationScheme nodes ndim) (q : ℚ),
      (settings_with_CFL dissipation q).CFL_number = q) ∧
    (euler_step (settings_with_CFL (oneDissipation 1 1) (-5)) zeroDynamics tinyGrid 0
      (fun _ => 0) (fun _ => true) none 10).1 = -5 := by
  refine ⟨fun nodes ndim dissipation q => rfl, ?_⟩
  simp [euler_step, euler_step_time_step, settings_with_CFL, oneDissipation, tinyGrid,
    zeroDynamics, derived_time_step, time_step_denominator,
    euler_step_dissipation_coefficients, qmax, qsign, List.finRange]
  norm_num

end HJ
